import Mathlib

/-!
Shallow embedding of the `bevy_entitiles` core covered by the spec:
the tile data model and chunk-index computation (`tilemap/tile.rs`),
the render-pipeline specialization (`render/pipeline.rs`), and the
save pass of the serialization subsystem (`serializing/save.rs`).

Machine integers are modelled as `Nat`/`Int`; `u32 as i32` casts are
explicit.  Panics (out-of-bounds indexing, division by zero, `unwrap`
failure) are modelled with `Option`/`Except`.  Opaque engine values
(bind-group layouts, shader handles, `f32` components that are only
stored and never computed on) are carried by structurally-comparable
carrier types.
-/

namespace EntiTiles

/-- Constant `MAX_LAYER_COUNT` from `lib.rs`. -/
def MAX_LAYER_COUNT : Nat := 4

/-- Bevy `UVec2`: an unsigned 2-D integer vector. -/
structure UVec2 where
  x : Nat
  y : Nat
deriving DecidableEq, Repr

/-- Bevy `Vec4`.  In the source the components are `f32`; the core only
stores and copies colors, never computes on them, so the components are
carried by an opaque structurally-comparable carrier (`Int`). -/
structure Vec4 where
  x : Int
  y : Int
  z : Int
  w : Int
deriving DecidableEq, Repr

/-- Bevy `Vec4::ONE`. -/
def Vec4.ONE : Vec4 := ⟨1, 1, 1, 1⟩

/-- Rust `u32 as i32` cast (two's complement reinterpretation). -/
def u32AsI32 (t : Nat) : Int :=
  if t % 2 ^ 32 < 2 ^ 31 then (t % 2 ^ 32 : Int) else (t % 2 ^ 32 : Int) - 2 ^ 32

/-- Entities are opaque stable identifiers supplied by the host ECS. -/
abbrev Entity := Nat

/-- Component `AnimatedTile` from `tilemap/tile.rs` (fields `layer`,
`sequence_index`, `fps`, `is_loop`); `fps : f32` is only stored, carried
as an opaque `Int`-valued token. -/
structure AnimatedTile where
  layer : Nat
  sequence_index : Nat
  fps : Int
  is_loop : Bool
deriving DecidableEq, Repr

/-- Record `SerializedTile` from the `serializing` module; its fields are fixed
by their use in `TileBuilder::from_serialized_tile`
(`texture_indices`, `top_layer`, `anim`, `color`). -/
structure SerializedTile where
  texture_indices : List Int
  top_layer : Nat
  anim : Option AnimatedTile
  color : Vec4
deriving DecidableEq, Repr

/-- Builder `TileBuilder` from `tilemap/tile.rs`.  `texture_indices` models the
`[i32; MAX_LAYER_COUNT]` array as a list of length `MAX_LAYER_COUNT`. -/
structure TileBuilder where
  texture_indices : List Int
  top_layer : Nat
  anim : Option AnimatedTile
  color : Vec4
deriving DecidableEq, Repr

namespace TileBuilder

/-- Constructor `TileBuilder::new`: all layers start at the sentinel `-1`, layer 0
gets the primary texture index (cast `u32 as i32`). -/
def new (texture_index : Nat) : TileBuilder :=
  { texture_indices := [u32AsI32 texture_index, -1, -1, -1]
    top_layer := 0
    anim := none
    color := Vec4.ONE }

/-- Constructor `TileBuilder::from_serialized_tile`: copies every field, including
`top_layer`, from the serialized record. -/
def from_serialized_tile (s : SerializedTile) : TileBuilder :=
  { texture_indices := s.texture_indices
    top_layer := s.top_layer
    anim := s.anim
    color := s.color }

/-- Method `TileBuilder::with_color`. -/
def with_color (b : TileBuilder) (color : Vec4) : TileBuilder :=
  { b with color := color }

/-- Method `TileBuilder::with_animation`. -/
def with_animation (b : TileBuilder) (anim : AnimatedTile) : TileBuilder :=
  { b with anim := some anim }

/-- Method `TileBuilder::with_layer`, exactly as written in the source:
if an animation is attached, it sets `anim.layer := layer`; otherwise,
only when `layer >= MAX_LAYER_COUNT` does it attempt
`texture_indices[layer] = texture_index as i32`, which is an
out-of-bounds write on the length-`MAX_LAYER_COUNT` array and panics
(modelled as `none`); for in-range layers without an animation the
builder is returned unchanged. -/
def with_layer (b : TileBuilder) (layer : Nat) (texture_index : Nat) :
    Option TileBuilder :=
  match b.anim with
  | some a => some { b with anim := some { a with layer := layer } }
  | none =>
    if layer ≥ MAX_LAYER_COUNT then
      none
    else
      some b

end TileBuilder

/-- Map geometry tag `TilemapType` from `tilemap/map.rs`, as matched in
`render/pipeline.rs` (`Square`, `Isometric`, `Hexagonal(_)`). -/
inductive TilemapType
  | Square
  | Isometric
  | Hexagonal (orientation : Nat)
deriving DecidableEq, Repr

/-- The `Tilemap` fields read by `TileBuilder::build` and by the save
pass: id, name, 2-D size, scalar render-chunk size, geometry tag, and
the sparse row-major tile array (`Vec<Option<Entity>>`). -/
structure Tilemap where
  id : Entity
  name : String
  size : UVec2
  render_chunk_size : Nat
  map_type : TilemapType
  tiles : List (Option Entity)
deriving DecidableEq, Repr

/-- The chunk-index computation inlined in `TileBuilder::build`
(`tile.rs` lines 78–87): `index / render_chunk_size` component-wise,
then row-major over `size.x / render_chunk_size` chunks per row when
`size.x` is divisible by `render_chunk_size`, and one more per row
otherwise. -/
def renderChunkIndex (index : UVec2) (size : UVec2) (c : Nat) : Nat :=
  let rx := index.x / c
  let ry := index.y / c
  if size.x % c = 0 then
    ry * (size.x / c) + rx
  else
    ry * (size.x / c + 1) + rx

/-- The `Tile` component inserted by `TileBuilder::build`. -/
structure Tile where
  tilemap_id : Entity
  render_chunk_index : Nat
  index : UVec2
  texture_indices : List Int
  top_layer : Nat
  color : Vec4
deriving DecidableEq, Repr

/-- Method `TileBuilder::build`: computes the render-chunk index, then spawns
an entity holding a `Tile` (note the literal `top_layer: 0`) and, when
present, the builder's `AnimatedTile` as a second component.  Division
by a zero `render_chunk_size` would panic in Rust, modelled as `none`.
The result models the inserted components. -/
def TileBuilder.build (b : TileBuilder) (index : UVec2) (tilemap : Tilemap) :
    Option (Tile × Option AnimatedTile) :=
  if tilemap.render_chunk_size = 0 then
    none
  else
    some
      ({ tilemap_id := tilemap.id
         render_chunk_index := renderChunkIndex index tilemap.size tilemap.render_chunk_size
         index := index
         texture_indices := b.texture_indices
         top_layer := 0
         color := b.color }, b.anim)

/-- Refinement target for the chunk-index claim, written from the
spec's words: the stride is `grid_size.x / c` when `grid_size.x` is
evenly divisible by `c` and that quotient plus one otherwise. -/
def strideSpec (grid_size_x : Nat) (c : Nat) : Nat :=
  if grid_size_x % c = 0 then grid_size_x / c else grid_size_x / c + 1

/-- Refinement target, from the spec's words: the chunk id is
`floor(y/c) * S + floor(x/c)` with `S` the stride above. -/
def chunkIdSpec (x y : Nat) (grid_size_x : Nat) (c : Nat) : Nat :=
  y / c * strideSpec grid_size_x c + x / c

/-- C1: for every in-grid coordinate and positive chunk size, the chunk
id computed at tile build time equals `floor(y/c) * S + floor(x/c)` with
the spec's stride `S`; in particular width 10 with chunk size 4 has
stride 3 and tile `(9, 0)` maps to chunk id 2. -/
theorem chunk_id_matches_spec (x y gx gy c : Nat) (hc : 0 < c)
    (hx : x < gx) (hy : y < gy) :
    renderChunkIndex ⟨x, y⟩ ⟨gx, gy⟩ c = chunkIdSpec x y gx c ∧
    strideSpec 10 4 = 3 ∧ renderChunkIndex ⟨9, 0⟩ ⟨10, 10⟩ 4 = 2 := by
  refine ⟨?_, by decide, by decide⟩
  unfold renderChunkIndex chunkIdSpec strideSpec
  by_cases h : gx % c = 0 <;> simp [h]

/-- Witness for C1 at the spec's boundary case. -/
theorem chunk_id_matches_spec_witness :
    0 < 4 ∧ 9 < 10 ∧ 0 < 10 ∧
    (renderChunkIndex ⟨9, 0⟩ ⟨10, 10⟩ 4 = chunkIdSpec 9 0 10 4 ∧
     strideSpec 10 4 = 3 ∧ renderChunkIndex ⟨9, 0⟩ ⟨10, 10⟩ 4 = 2) :=
  ⟨by decide, by decide, by decide,
   chunk_id_matches_spec 9 0 10 10 4 (by decide) (by decide) (by decide)⟩

/-- C2 (code evaluation at the failing inputs): `with_layer` on an
animation-free builder silently ignores an in-range layer (the claim
says `texture_indices[1]` becomes 7), panics on an out-of-range layer
(the claim says no-op), and with an animation attached redirects the
animation's target layer (the claim says the builder is unchanged). -/
theorem with_layer_code_eval :
    TileBuilder.with_layer (TileBuilder.new 0) 1 7 = some (TileBuilder.new 0) ∧
    TileBuilder.with_layer (TileBuilder.new 0) 4 7 = none ∧
    TileBuilder.with_layer ((TileBuilder.new 0).with_animation ⟨0, 5, 30, true⟩) 2 7 =
      some ((TileBuilder.new 0).with_animation ⟨2, 5, 30, true⟩) := by
  refine ⟨by decide, by decide, by decide⟩

/-- C10: `build` stores a `Tile` whose `top_layer` is the literal 0,
discarding the builder's `top_layer` (which `from_serialized_tile` does
carry over from the serialized record), while `texture_indices` and
`color` are stored unchanged. -/
theorem build_resets_top_layer (b : TileBuilder) (index : UVec2)
    (tm : Tilemap) (t : Tile) (oa : Option AnimatedTile)
    (h : TileBuilder.build b index tm = some (t, oa)) :
    t.top_layer = 0 ∧ t.texture_indices = b.texture_indices ∧
    t.color = b.color ∧
    ∀ s : SerializedTile,
      (TileBuilder.from_serialized_tile s).top_layer = s.top_layer := by
  unfold TileBuilder.build at h
  split at h
  · exact absurd h (by simp)
  · simp only [Option.some.injEq, Prod.mk.injEq] at h
    obtain ⟨ht, hoa⟩ := h
    subst ht
    exact ⟨rfl, rfl, rfl, fun s => rfl⟩

/-- Witness for C10: a serialized tile with `top_layer = 2` round-trips
through the builder, and `build` still stores `top_layer = 0`. -/
theorem build_resets_top_layer_witness :
    TileBuilder.build
        (TileBuilder.from_serialized_tile ⟨[3, 8, -1, -1], 2, none, Vec4.ONE⟩)
        ⟨9, 0⟩ ⟨0, "m", ⟨10, 10⟩, 4, .Square, []⟩ =
      some (⟨0, 2, ⟨9, 0⟩, [3, 8, -1, -1], 0, Vec4.ONE⟩, none) ∧
    ((⟨0, 2, ⟨9, 0⟩, [3, 8, -1, -1], 0, Vec4.ONE⟩ : Tile).top_layer = 0 ∧
     (⟨0, 2, ⟨9, 0⟩, [3, 8, -1, -1], 0, Vec4.ONE⟩ : Tile).texture_indices =
       (TileBuilder.from_serialized_tile ⟨[3, 8, -1, -1], 2, none, Vec4.ONE⟩).texture_indices ∧
     (⟨0, 2, ⟨9, 0⟩, [3, 8, -1, -1], 0, Vec4.ONE⟩ : Tile).color =
       (TileBuilder.from_serialized_tile ⟨[3, 8, -1, -1], 2, none, Vec4.ONE⟩).color ∧
     ∀ s : SerializedTile,
       (TileBuilder.from_serialized_tile s).top_layer = s.top_layer) :=
  ⟨by decide,
   build_resets_top_layer
     (TileBuilder.from_serialized_tile ⟨[3, 8, -1, -1], 2, none, Vec4.ONE⟩)
     ⟨9, 0⟩ ⟨0, "m", ⟨10, 10⟩, 4, .Square, []⟩
     ⟨0, 2, ⟨9, 0⟩, [3, 8, -1, -1], 0, Vec4.ONE⟩ none (by decide)⟩

/-- Opaque GPU bind-group layout handle; equality is structural on the
handle, matching `clone` sharing in the source. -/
structure BindGroupLayout where
  id : Nat
deriving DecidableEq, Repr

/-- Opaque shader asset handle. -/
structure ShaderHandle where
  id : Nat
deriving DecidableEq, Repr

/-- Key `EntiTilesPipelineKey` from `render/pipeline.rs`. -/
structure EntiTilesPipelineKey where
  msaa : Nat
  map_type : TilemapType
  without_texture : Bool
deriving DecidableEq, Repr

/-- Resource `EntiTilesPipeline` from `render/pipeline.rs`: the shared
bind-group layouts and shader handles read by `specialize`. -/
structure EntiTilesPipeline where
  view_layout : BindGroupLayout
  uniform_buffers_layout : BindGroupLayout
  storage_buffers_layout : BindGroupLayout
  color_texture_layout : BindGroupLayout
  add_material_layout : BindGroupLayout
  vertex_shader : ShaderHandle
  fragment_shader : ShaderHandle
deriving DecidableEq, Repr

/-- Vertex attribute formats used by the pipeline. -/
inductive VertexFormat
  | Float32x3
  | Sint32x4
  | Float32x4
  | Uint32x4
deriving DecidableEq, Repr

/-- Vertex buffer step mode. -/
inductive VertexStepMode
  | Vertex
  | Instance
deriving DecidableEq, Repr

/-- Vertex buffer layout, at the level of its ordered attribute format
list (`VertexBufferLayout::from_vertex_formats` keeps the given order). -/
structure VertexBufferLayout where
  step_mode : VertexStepMode
  formats : List VertexFormat
deriving DecidableEq, Repr

/-- Shader stage state (`VertexState` / `FragmentState` share shape up
to targets). -/
structure VertexState where
  shader : ShaderHandle
  shader_defs : List String
  entry_point : String
  buffers : List VertexBufferLayout
deriving DecidableEq, Repr

/-- Texture format of the color target; `bevy_default()` is consumed as
an already-resolved external constant. -/
structure TextureFormat where
  id : Nat
deriving DecidableEq, Repr

/-- External constant `TextureFormat::bevy_default()`. -/
def TextureFormat.bevy_default : TextureFormat := ⟨0⟩

/-- Blend state token; `BlendState::ALPHA_BLENDING` is the only value
the core uses. -/
structure BlendState where
  id : Nat
deriving DecidableEq, Repr

/-- External constant `BlendState::ALPHA_BLENDING`. -/
def BlendState.ALPHA_BLENDING : BlendState := ⟨0⟩

/-- Color target state of the fragment stage. -/
structure ColorTargetState where
  format : TextureFormat
  blend : Option BlendState
  write_mask : Nat
deriving DecidableEq, Repr

/-- Fragment stage state. -/
structure FragmentState where
  shader : ShaderHandle
  shader_defs : List String
  entry_point : String
  targets : List (Option ColorTargetState)
deriving DecidableEq, Repr

/-- Winding order of front faces. -/
inductive FrontFace
  | Ccw
  | Cw
deriving DecidableEq, Repr

/-- Face selector for culling. -/
inductive Face
  | Front
  | Back
deriving DecidableEq, Repr

/-- Primitive topology. -/
inductive PrimitiveTopology
  | PointList
  | LineList
  | LineStrip
  | TriangleList
  | TriangleStrip
deriving DecidableEq, Repr

/-- Index format for strip topologies. -/
inductive IndexFormat
  | Uint16
  | Uint32
deriving DecidableEq, Repr

/-- Polygon rasterization mode. -/
inductive PolygonMode
  | Fill
  | Line
  | Point
deriving DecidableEq, Repr

/-- Fixed-function primitive state. -/
structure PrimitiveState where
  topology : PrimitiveTopology
  strip_index_format : Option IndexFormat
  front_face : FrontFace
  cull_mode : Option Face
  unclipped_depth : Bool
  polygon_mode : PolygonMode
  conservative : Bool
deriving DecidableEq, Repr

/-- Multisample state; `mask: !0` is the all-ones `u64`. -/
structure MultisampleState where
  count : Nat
  mask : Nat
  alpha_to_coverage_enabled : Bool
deriving DecidableEq, Repr

/-- Render pipeline descriptor, with the depth/stencil attachment kept
opaque (the core always leaves it absent). -/
structure RenderPipelineDescriptor where
  label : Option String
  layout : List BindGroupLayout
  push_constant_ranges : List Nat
  vertex : VertexState
  fragment : Option FragmentState
  primitive : PrimitiveState
  depth_stencil : Option Nat
  multisample : MultisampleState

/-- Modelled from the spec: the material type parameter
`M: TilemapMaterial` (its module is not part of the excerpted core).
`isStandard` models the `TypeId` comparison against the built-in
`StandardTilemapMaterial`, and `hook` models `M::specialize`, the final
customization hook of §4.3 step 5, which for the built-in default
leaves the descriptor unchanged. -/
structure Material where
  isStandard : Bool
  hook : RenderPipelineDescriptor → RenderPipelineDescriptor

/-- Modelled from the spec: the built-in default material; its
customization hook performs no override. -/
def StandardTilemapMaterial : Material :=
  { isStandard := true, hook := fun d => d }

/-- Method `EntiTilesPipeline::specialize` from `render/pipeline.rs`,
translated statement by statement (the `atlas` cargo feature is off, so
no `ATLAS` define is pushed). -/
def EntiTilesPipeline.specialize (self : EntiTilesPipeline) (M : Material)
    (key : EntiTilesPipelineKey) : RenderPipelineDescriptor :=
  let shader_defs : List String :=
    [match key.map_type with
     | .Square => "SQUARE"
     | .Isometric => "ISOMETRIC"
     | .Hexagonal _ => "HEXAGONAL"] ++
      (if key.without_texture then ["WITHOUT_TEXTURE"] else [])
  let vtx_fmt : List VertexFormat :=
    [.Float32x3, .Sint32x4, .Float32x4] ++
      (if key.without_texture then [] else [.Sint32x4, .Uint32x4])
  let vertex_layout : VertexBufferLayout := ⟨.Vertex, vtx_fmt⟩
  let layout : List BindGroupLayout :=
    [self.view_layout, self.uniform_buffers_layout] ++
      (if key.without_texture then []
       else [self.color_texture_layout, self.storage_buffers_layout]) ++
      (if M.isStandard then [] else [self.add_material_layout])
  let desc : RenderPipelineDescriptor :=
    { label := some "tilemap_pipeline"
      layout := layout
      push_constant_ranges := []
      vertex :=
        { shader := self.vertex_shader
          shader_defs := shader_defs
          entry_point := "tilemap_vertex"
          buffers := [vertex_layout] }
      fragment := some
        { shader := self.fragment_shader
          shader_defs := shader_defs
          entry_point := "tilemap_fragment"
          targets := [some
            { format := TextureFormat.bevy_default
              blend := some BlendState.ALPHA_BLENDING
              write_mask := 15 }] }
      primitive :=
        { topology := .TriangleList
          strip_index_format := none
          front_face := .Cw
          cull_mode := some .Back
          unclipped_depth := false
          polygon_mode := .Fill
          conservative := false }
      depth_stencil := none
      multisample :=
        { count := key.msaa
          mask := 2 ^ 64 - 1
          alpha_to_coverage_enabled := false } }
  M.hook desc

/-- State-passing form of the `specialize` call: the Rust method takes
`&self` and its body only clones fields, so the receiver comes back
unchanged. -/
def EntiTilesPipeline.specializeCall (self : EntiTilesPipeline) (M : Material)
    (key : EntiTilesPipelineKey) :
    RenderPipelineDescriptor × EntiTilesPipeline :=
  (self.specialize M key, self)

/-- C3: for every key (and any material whose customization hook
performs no override), the descriptor's shader define follows the map
geometry with `WITHOUT_TEXTURE` appended exactly when untextured, the
vertex attributes are position, packed index/animation data, color,
then (textured only) texture indices and flip flags, the bind groups
are view, per-tilemap uniforms, then (textured only) color/texture and
per-tile storage, then (non-default material only) the material
extension, and the fixed-function state has clockwise front face,
back-face culling, triangle-list topology, no depth/stencil, and
multisample count `key.msaa`. -/
theorem specialize_descriptor_shape (p : EntiTilesPipeline) (M : Material)
    (key : EntiTilesPipelineKey) (hM : M.hook = fun d => d) :
    (p.specialize M key).vertex.shader_defs =
      [match key.map_type with
       | .Square => "SQUARE"
       | .Isometric => "ISOMETRIC"
       | .Hexagonal _ => "HEXAGONAL"] ++
        (if key.without_texture then ["WITHOUT_TEXTURE"] else []) ∧
    (p.specialize M key).vertex.buffers =
      [⟨.Vertex, [.Float32x3, .Sint32x4, .Float32x4] ++
        (if key.without_texture then [] else [.Sint32x4, .Uint32x4])⟩] ∧
    (p.specialize M key).layout =
      [p.view_layout, p.uniform_buffers_layout] ++
        (if key.without_texture then []
         else [p.color_texture_layout, p.storage_buffers_layout]) ++
        (if M.isStandard then [] else [p.add_material_layout]) ∧
    (p.specialize M key).primitive.front_face = .Cw ∧
    (p.specialize M key).primitive.cull_mode = some .Back ∧
    (p.specialize M key).primitive.topology = .TriangleList ∧
    (p.specialize M key).depth_stencil = none ∧
    (p.specialize M key).multisample.count = key.msaa := by
  simp [EntiTilesPipeline.specialize, hM]

/-- Witness for C3 with the standard material and an untextured
isometric key at sample count 4. -/
theorem specialize_descriptor_shape_witness :
    StandardTilemapMaterial.hook = (fun d => d) ∧
    (((⟨⟨0⟩, ⟨1⟩, ⟨2⟩, ⟨3⟩, ⟨4⟩, ⟨10⟩, ⟨11⟩⟩ : EntiTilesPipeline).specialize
        StandardTilemapMaterial ⟨4, .Isometric, true⟩).vertex.shader_defs =
      ["ISOMETRIC", "WITHOUT_TEXTURE"] ∧
    ((⟨⟨0⟩, ⟨1⟩, ⟨2⟩, ⟨3⟩, ⟨4⟩, ⟨10⟩, ⟨11⟩⟩ : EntiTilesPipeline).specialize
        StandardTilemapMaterial ⟨4, .Isometric, true⟩).vertex.buffers =
      [⟨.Vertex, [.Float32x3, .Sint32x4, .Float32x4]⟩] ∧
    ((⟨⟨0⟩, ⟨1⟩, ⟨2⟩, ⟨3⟩, ⟨4⟩, ⟨10⟩, ⟨11⟩⟩ : EntiTilesPipeline).specialize
        StandardTilemapMaterial ⟨4, .Isometric, true⟩).layout =
      [⟨0⟩, ⟨1⟩] ∧
    ((⟨⟨0⟩, ⟨1⟩, ⟨2⟩, ⟨3⟩, ⟨4⟩, ⟨10⟩, ⟨11⟩⟩ : EntiTilesPipeline).specialize
        StandardTilemapMaterial ⟨4, .Isometric, true⟩).primitive.front_face = .Cw ∧
    ((⟨⟨0⟩, ⟨1⟩, ⟨2⟩, ⟨3⟩, ⟨4⟩, ⟨10⟩, ⟨11⟩⟩ : EntiTilesPipeline).specialize
        StandardTilemapMaterial ⟨4, .Isometric, true⟩).primitive.cull_mode = some .Back ∧
    ((⟨⟨0⟩, ⟨1⟩, ⟨2⟩, ⟨3⟩, ⟨4⟩, ⟨10⟩, ⟨11⟩⟩ : EntiTilesPipeline).specialize
        StandardTilemapMaterial ⟨4, .Isometric, true⟩).primitive.topology = .TriangleList ∧
    ((⟨⟨0⟩, ⟨1⟩, ⟨2⟩, ⟨3⟩, ⟨4⟩, ⟨10⟩, ⟨11⟩⟩ : EntiTilesPipeline).specialize
        StandardTilemapMaterial ⟨4, .Isometric, true⟩).depth_stencil = none ∧
    ((⟨⟨0⟩, ⟨1⟩, ⟨2⟩, ⟨3⟩, ⟨4⟩, ⟨10⟩, ⟨11⟩⟩ : EntiTilesPipeline).specialize
        StandardTilemapMaterial ⟨4, .Isometric, true⟩).multisample.count = 4) :=
  ⟨rfl, specialize_descriptor_shape ⟨⟨0⟩, ⟨1⟩, ⟨2⟩, ⟨3⟩, ⟨4⟩, ⟨10⟩, ⟨11⟩⟩
    StandardTilemapMaterial ⟨4, .Isometric, true⟩ rfl⟩

/-- C7: flipping only the texture flag from textured to untextured adds
exactly the `WITHOUT_TEXTURE` define, removes exactly the texture-index
and flip vertex attributes and the color/texture and per-tile storage
bind groups, and leaves every other part of the descriptor equal. -/
theorem specialize_texture_toggle_diff (p : EntiTilesPipeline) (M : Material)
    (msaa : Nat) (mt : TilemapType) (hM : M.hook = fun d => d) :
    (p.specialize M ⟨msaa, mt, true⟩).vertex.shader_defs =
      (p.specialize M ⟨msaa, mt, false⟩).vertex.shader_defs ++ ["WITHOUT_TEXTURE"] ∧
    (p.specialize M ⟨msaa, mt, false⟩).vertex.buffers =
      (p.specialize M ⟨msaa, mt, true⟩).vertex.buffers.map
        (fun bl => ⟨bl.step_mode, bl.formats ++ [.Sint32x4, .Uint32x4]⟩) ∧
    (p.specialize M ⟨msaa, mt, false⟩).layout =
      (p.specialize M ⟨msaa, mt, true⟩).layout.take 2 ++
        [p.color_texture_layout, p.storage_buffers_layout] ++
        (p.specialize M ⟨msaa, mt, true⟩).layout.drop 2 ∧
    (p.specialize M ⟨msaa, mt, true⟩).label =
      (p.specialize M ⟨msaa, mt, false⟩).label ∧
    (p.specialize M ⟨msaa, mt, true⟩).push_constant_ranges =
      (p.specialize M ⟨msaa, mt, false⟩).push_constant_ranges ∧
    (p.specialize M ⟨msaa, mt, true⟩).vertex.shader =
      (p.specialize M ⟨msaa, mt, false⟩).vertex.shader ∧
    (p.specialize M ⟨msaa, mt, true⟩).vertex.entry_point =
      (p.specialize M ⟨msaa, mt, false⟩).vertex.entry_point ∧
    (p.specialize M ⟨msaa, mt, true⟩).fragment.map
        (fun f => (f.shader, f.entry_point, f.targets)) =
      (p.specialize M ⟨msaa, mt, false⟩).fragment.map
        (fun f => (f.shader, f.entry_point, f.targets)) ∧
    (p.specialize M ⟨msaa, mt, true⟩).fragment.map FragmentState.shader_defs =
      ((p.specialize M ⟨msaa, mt, false⟩).fragment.map FragmentState.shader_defs).map
        (fun ds => ds ++ ["WITHOUT_TEXTURE"]) ∧
    (p.specialize M ⟨msaa, mt, true⟩).primitive =
      (p.specialize M ⟨msaa, mt, false⟩).primitive ∧
    (p.specialize M ⟨msaa, mt, true⟩).depth_stencil =
      (p.specialize M ⟨msaa, mt, false⟩).depth_stencil ∧
    (p.specialize M ⟨msaa, mt, true⟩).multisample =
      (p.specialize M ⟨msaa, mt, false⟩).multisample := by
  simp only [EntiTilesPipeline.specialize, hM]
  rcases M with ⟨std, hook⟩
  cases std <;> simp

/-- Witness for C7 with the standard material, a square map and sample
count 1. -/
theorem specialize_texture_toggle_diff_witness :
    StandardTilemapMaterial.hook = (fun d => d) ∧
    (((⟨⟨0⟩, ⟨1⟩, ⟨2⟩, ⟨3⟩, ⟨4⟩, ⟨10⟩, ⟨11⟩⟩ : EntiTilesPipeline).specialize
        StandardTilemapMaterial ⟨1, .Square, true⟩).vertex.shader_defs =
      ((⟨⟨0⟩, ⟨1⟩, ⟨2⟩, ⟨3⟩, ⟨4⟩, ⟨10⟩, ⟨11⟩⟩ : EntiTilesPipeline).specialize
        StandardTilemapMaterial ⟨1, .Square, false⟩).vertex.shader_defs ++
        ["WITHOUT_TEXTURE"] ∧
    ((⟨⟨0⟩, ⟨1⟩, ⟨2⟩, ⟨3⟩, ⟨4⟩, ⟨10⟩, ⟨11⟩⟩ : EntiTilesPipeline).specialize
        StandardTilemapMaterial ⟨1, .Square, false⟩).vertex.buffers =
      ((⟨⟨0⟩, ⟨1⟩, ⟨2⟩, ⟨3⟩, ⟨4⟩, ⟨10⟩, ⟨11⟩⟩ : EntiTilesPipeline).specialize
        StandardTilemapMaterial ⟨1, .Square, true⟩).vertex.buffers.map
        (fun bl => ⟨bl.step_mode, bl.formats ++ [.Sint32x4, .Uint32x4]⟩) ∧
    ((⟨⟨0⟩, ⟨1⟩, ⟨2⟩, ⟨3⟩, ⟨4⟩, ⟨10⟩, ⟨11⟩⟩ : EntiTilesPipeline).specialize
        StandardTilemapMaterial ⟨1, .Square, false⟩).layout =
      ((⟨⟨0⟩, ⟨1⟩, ⟨2⟩, ⟨3⟩, ⟨4⟩, ⟨10⟩, ⟨11⟩⟩ : EntiTilesPipeline).specialize
        StandardTilemapMaterial ⟨1, .Square, true⟩).layout.take 2 ++
        [⟨3⟩, ⟨2⟩] ++
        ((⟨⟨0⟩, ⟨1⟩, ⟨2⟩, ⟨3⟩, ⟨4⟩, ⟨10⟩, ⟨11⟩⟩ : EntiTilesPipeline).specialize
        StandardTilemapMaterial ⟨1, .Square, true⟩).layout.drop 2 ∧
    ((⟨⟨0⟩, ⟨1⟩, ⟨2⟩, ⟨3⟩, ⟨4⟩, ⟨10⟩, ⟨11⟩⟩ : EntiTilesPipeline).specialize
        StandardTilemapMaterial ⟨1, .Square, true⟩).label =
      ((⟨⟨0⟩, ⟨1⟩, ⟨2⟩, ⟨3⟩, ⟨4⟩, ⟨10⟩, ⟨11⟩⟩ : EntiTilesPipeline).specialize
        StandardTilemapMaterial ⟨1, .Square, false⟩).label ∧
    ((⟨⟨0⟩, ⟨1⟩, ⟨2⟩, ⟨3⟩, ⟨4⟩, ⟨10⟩, ⟨11⟩⟩ : EntiTilesPipeline).specialize
        StandardTilemapMaterial ⟨1, .Square, true⟩).push_constant_ranges =
      ((⟨⟨0⟩, ⟨1⟩, ⟨2⟩, ⟨3⟩, ⟨4⟩, ⟨10⟩, ⟨11⟩⟩ : EntiTilesPipeline).specialize
        StandardTilemapMaterial ⟨1, .Square, false⟩).push_constant_ranges ∧
    ((⟨⟨0⟩, ⟨1⟩, ⟨2⟩, ⟨3⟩, ⟨4⟩, ⟨10⟩, ⟨11⟩⟩ : EntiTilesPipeline).specialize
        StandardTilemapMaterial ⟨1, .Square, true⟩).vertex.shader =
      ((⟨⟨0⟩, ⟨1⟩, ⟨2⟩, ⟨3⟩, ⟨4⟩, ⟨10⟩, ⟨11⟩⟩ : EntiTilesPipeline).specialize
        StandardTilemapMaterial ⟨1, .Square, false⟩).vertex.shader ∧
    ((⟨⟨0⟩, ⟨1⟩, ⟨2⟩, ⟨3⟩, ⟨4⟩, ⟨10⟩, ⟨11⟩⟩ : EntiTilesPipeline).specialize
        StandardTilemapMaterial ⟨1, .Square, true⟩).vertex.entry_point =
      ((⟨⟨0⟩, ⟨1⟩, ⟨2⟩, ⟨3⟩, ⟨4⟩, ⟨10⟩, ⟨11⟩⟩ : EntiTilesPipeline).specialize
        StandardTilemapMaterial ⟨1, .Square, false⟩).vertex.entry_point ∧
    ((⟨⟨0⟩, ⟨1⟩, ⟨2⟩, ⟨3⟩, ⟨4⟩, ⟨10⟩, ⟨11⟩⟩ : EntiTilesPipeline).specialize
        StandardTilemapMaterial ⟨1, .Square, true⟩).fragment.map
        (fun f => (f.shader, f.entry_point, f.targets)) =
      ((⟨⟨0⟩, ⟨1⟩, ⟨2⟩, ⟨3⟩, ⟨4⟩, ⟨10⟩, ⟨11⟩⟩ : EntiTilesPipeline).specialize
        StandardTilemapMaterial ⟨1, .Square, false⟩).fragment.map
        (fun f => (f.shader, f.entry_point, f.targets)) ∧
    ((⟨⟨0⟩, ⟨1⟩, ⟨2⟩, ⟨3⟩, ⟨4⟩, ⟨10⟩, ⟨11⟩⟩ : EntiTilesPipeline).specialize
        StandardTilemapMaterial ⟨1, .Square, true⟩).fragment.map
        FragmentState.shader_defs =
      (((⟨⟨0⟩, ⟨1⟩, ⟨2⟩, ⟨3⟩, ⟨4⟩, ⟨10⟩, ⟨11⟩⟩ : EntiTilesPipeline).specialize
        StandardTilemapMaterial ⟨1, .Square, false⟩).fragment.map
        FragmentState.shader_defs).map (fun ds => ds ++ ["WITHOUT_TEXTURE"]) ∧
    ((⟨⟨0⟩, ⟨1⟩, ⟨2⟩, ⟨3⟩, ⟨4⟩, ⟨10⟩, ⟨11⟩⟩ : EntiTilesPipeline).specialize
        StandardTilemapMaterial ⟨1, .Square, true⟩).primitive =
      ((⟨⟨0⟩, ⟨1⟩, ⟨2⟩, ⟨3⟩, ⟨4⟩, ⟨10⟩, ⟨11⟩⟩ : EntiTilesPipeline).specialize
        StandardTilemapMaterial ⟨1, .Square, false⟩).primitive ∧
    ((⟨⟨0⟩, ⟨1⟩, ⟨2⟩, ⟨3⟩, ⟨4⟩, ⟨10⟩, ⟨11⟩⟩ : EntiTilesPipeline).specialize
        StandardTilemapMaterial ⟨1, .Square, true⟩).depth_stencil =
      ((⟨⟨0⟩, ⟨1⟩, ⟨2⟩, ⟨3⟩, ⟨4⟩, ⟨10⟩, ⟨11⟩⟩ : EntiTilesPipeline).specialize
        StandardTilemapMaterial ⟨1, .Square, false⟩).depth_stencil ∧
    ((⟨⟨0⟩, ⟨1⟩, ⟨2⟩, ⟨3⟩, ⟨4⟩, ⟨10⟩, ⟨11⟩⟩ : EntiTilesPipeline).specialize
        StandardTilemapMaterial ⟨1, .Square, true⟩).multisample =
      ((⟨⟨0⟩, ⟨1⟩, ⟨2⟩, ⟨3⟩, ⟨4⟩, ⟨10⟩, ⟨11⟩⟩ : EntiTilesPipeline).specialize
        StandardTilemapMaterial ⟨1, .Square, false⟩).multisample) :=
  ⟨rfl, specialize_texture_toggle_diff ⟨⟨0⟩, ⟨1⟩, ⟨2⟩, ⟨3⟩, ⟨4⟩, ⟨10⟩, ⟨11⟩⟩
    StandardTilemapMaterial 1 .Square rfl⟩

/-- C8: `specialize` is a pure, deterministic function of the key and
the pipeline's stored layouts and shader handles — structurally equal
inputs give structurally equal descriptors — and the call leaves the
receiver (the stored layouts and handles) unchanged. -/
theorem specialize_pure (p₁ p₂ : EntiTilesPipeline) (M₁ M₂ : Material)
    (k₁ k₂ : EntiTilesPipelineKey) (hp : p₁ = p₂) (hM : M₁ = M₂)
    (hk : k₁ = k₂) :
    (p₁.specializeCall M₁ k₁).1 = (p₂.specializeCall M₂ k₂).1 ∧
    (p₁.specializeCall M₁ k₁).2 = p₁ := by
  subst hp
  subst hM
  subst hk
  exact ⟨rfl, rfl⟩

/-- Witness for C8 at a concrete pipeline, the standard material, and a
textured square key. -/
theorem specialize_pure_witness :
    (⟨⟨0⟩, ⟨1⟩, ⟨2⟩, ⟨3⟩, ⟨4⟩, ⟨10⟩, ⟨11⟩⟩ : EntiTilesPipeline) =
      ⟨⟨0⟩, ⟨1⟩, ⟨2⟩, ⟨3⟩, ⟨4⟩, ⟨10⟩, ⟨11⟩⟩ ∧
    StandardTilemapMaterial = StandardTilemapMaterial ∧
    (⟨4, .Square, false⟩ : EntiTilesPipelineKey) = ⟨4, .Square, false⟩ ∧
    (((⟨⟨0⟩, ⟨1⟩, ⟨2⟩, ⟨3⟩, ⟨4⟩, ⟨10⟩, ⟨11⟩⟩ : EntiTilesPipeline).specializeCall
        StandardTilemapMaterial ⟨4, .Square, false⟩).1 =
      ((⟨⟨0⟩, ⟨1⟩, ⟨2⟩, ⟨3⟩, ⟨4⟩, ⟨10⟩, ⟨11⟩⟩ : EntiTilesPipeline).specializeCall
        StandardTilemapMaterial ⟨4, .Square, false⟩).1 ∧
    ((⟨⟨0⟩, ⟨1⟩, ⟨2⟩, ⟨3⟩, ⟨4⟩, ⟨10⟩, ⟨11⟩⟩ : EntiTilesPipeline).specializeCall
        StandardTilemapMaterial ⟨4, .Square, false⟩).2 =
      ⟨⟨0⟩, ⟨1⟩, ⟨2⟩, ⟨3⟩, ⟨4⟩, ⟨10⟩, ⟨11⟩⟩) :=
  ⟨rfl, rfl, rfl, specialize_pure ⟨⟨0⟩, ⟨1⟩, ⟨2⟩, ⟨3⟩, ⟨4⟩, ⟨10⟩, ⟨11⟩⟩
    ⟨⟨0⟩, ⟨1⟩, ⟨2⟩, ⟨3⟩, ⟨4⟩, ⟨10⟩, ⟨11⟩⟩ StandardTilemapMaterial
    StandardTilemapMaterial ⟨4, .Square, false⟩ ⟨4, .Square, false⟩
    rfl rfl rfl⟩

/-- Mode `TilemapSaverMode` from `serializing/save.rs`. -/
inductive TilemapSaverMode
  | Tilemap
  | MapPattern
deriving DecidableEq, Repr

/-- Component `TilemapSaver` from `serializing/save.rs`: the attached
save request (`layers` is the persistence layer bitmask). -/
structure TilemapSaver where
  path : String
  texture_path : Option String
  layers : Nat
  remove_map_after_done : Bool
  mode : TilemapSaverMode
deriving DecidableEq, Repr

/-- Modelled from the spec: the file-name constants `TILEMAP_META`,
`TILES` and `PATH_TILES` live in the serializing module root, which is
not part of the excerpted core; §6 gives the on-disk layout
`<base>/<name>/tilemap_meta`, `.../tiles`, `.../path_tiles`. -/
def TILEMAP_META : String := "tilemap_meta"

/-- Modelled from the spec: tile-layer file name, see `TILEMAP_META`. -/
def TILES : String := "tiles"

/-- Modelled from the spec: pathfinding-layer file name, see
`TILEMAP_META`. -/
def PATH_TILES : String := "path_tiles"

/-- Modelled from the spec: `SerializedTilemap`
(`SerializedTilemap::from_tilemap` is outside the excerpted core); §4.4
says the metadata file holds map dimensions, geometry, chunk size and
the texture reference. -/
structure SerializedTilemap where
  size : UVec2
  map_type : TilemapType
  render_chunk_size : Nat
  texture_path : Option String
deriving DecidableEq, Repr

/-- Modelled from the spec: `SerializedTilemap::from_tilemap` gathers
the metadata fields from the tilemap and the saver's texture path. -/
def SerializedTilemap.from_tilemap (tm : Tilemap) (saver : TilemapSaver) :
    SerializedTilemap :=
  ⟨tm.size, tm.map_type, tm.render_chunk_size, saver.texture_path⟩

/-- Modelled from the spec: the `Tile → SerializedTile` conversion
(`impl Into<SerializedTile> for Tile` is outside the excerpted core);
the TileRecord fields of §3 are carried over, with no animation
reference on the `Tile` component itself. -/
def Tile.into_serialized (t : Tile) : SerializedTile :=
  ⟨t.texture_indices, t.top_layer, none, t.color⟩

/-- Modelled from the spec: a pathfinding cost cell (§3's
pathfinding-cost layer; the `algorithm` module is outside the excerpted
core). -/
structure PathTile where
  cost : Nat
deriving DecidableEq, Repr

/-- Modelled from the spec: the serialized form of a cost cell; the
`(*t).into()` conversion in the save pass is carried cell-for-cell. -/
def PathTile.into_serialized (t : PathTile) : PathTile := t

/-- Modelled from the spec: `PathTilemap`, the sparse pathfinding-cost
layer, with the fields the save pass reads (`size`, `tiles` as an
ordered sequence of optional cost cells). -/
structure PathTilemap where
  size : UVec2
  tiles : List (Option PathTile)
deriving DecidableEq, Repr

/-- Record `SerializedPathTilemap` as constructed in
`serializing/save.rs` (fields `size` and `tiles`). -/
structure SerializedPathTilemap where
  size : UVec2
  tiles : List (Option PathTile)
deriving DecidableEq, Repr

/-- Record `TilemapPattern` with the fields used in
`serializing/save.rs`: optional label, 2-D size, per-cell optional tile
records, and an optional per-cell optional cost-cell sequence. -/
structure TilemapPattern where
  label : Option String
  size : UVec2
  tiles : List (Option SerializedTile)
  path_tiles : Option (List (Option PathTile))
deriving DecidableEq, Repr

/-- Serialized payload written by one `save_object` call. -/
inductive SaveContent
  | meta (m : SerializedTilemap)
  | tileLayer (ts : List (Option SerializedTile))
  | pathLayer (pm : SerializedPathTilemap)
  | mapPattern (p : TilemapPattern)
deriving DecidableEq, Repr

/-- Fault-injection oracle for the file system: whether each directory
creation, file creation (open-for-write), file open (open-for-read) and
write succeeds. -/
structure FSOracle where
  create_dir_ok : String → Bool
  create_ok : String → Bool
  open_ok : String → Bool
  write_ok : String → Bool

/-- Function `save_object` from `serializing/save.rs`, with the written
files as an explicit log: the result of `create_dir_all` is discarded
(`let _ = ...`); then `File::create(path)` runs, and — because
`Result::unwrap_or` evaluates its argument eagerly — so does
`File::open(path).unwrap()` on every call, panicking (`.error`)
whenever the open fails, even right after a successful create (which
has already truncated the file by then; the log describes completed
runs only).  When both calls ran, `unwrap_or` keeps the created handle
if the create succeeded — its ignored write fills the file only when it
succeeds, logged `none` for a truncated file — and otherwise the
read-only opened handle, whose ignored write fails and leaves the log
unchanged, discarding the original create error. -/
def save_object (o : FSOracle) (files : List (String × Option SaveContent))
    (path : String) (file_name : String) (object : SaveContent) :
    Except String (List (String × Option SaveContent)) :=
  let _ := o.create_dir_ok path
  let full := path ++ file_name
  let created := o.create_ok full
  if o.open_ok full then
    if created then
      .ok (files ++ [(full, if o.write_ok full then some object else none)])
    else
      .ok files
  else
    .error full

/-- Log of file writes: target path and written content (`none` for a
truncated file whose write failed). -/
abbrev FileLog := List (String × Option SaveContent)

/-- Metadata write of one save iteration (`save.rs` lines 121–124):
only in `Tilemap` mode. -/
def saveMeta (o : FSOracle) (files : FileLog) (tilemap : Tilemap)
    (saver : TilemapSaver) : Except String FileLog :=
  if saver.mode = .Tilemap then
    save_object o files (saver.path ++ "\\" ++ tilemap.name ++ "\\") TILEMAP_META
      (.meta (SerializedTilemap.from_tilemap tilemap saver))
  else .ok files

/-- Tile/color layer of one save iteration (`save.rs` lines 133–151):
when mask bit 0 is set, gather one optional serialized record per grid
cell in order and either write the layer file (`Tilemap` mode) or store
the sequence in the pattern (`MapPattern` mode). -/
def saveColorLayer (o : FSOracle) (tiles_query : Entity → Tile)
    (files : FileLog) (tilemap : Tilemap) (saver : TilemapSaver)
    (pattern : TilemapPattern) : Except String (FileLog × TilemapPattern) :=
  if saver.layers &&& 1 ≠ 0 then
    match saver.mode with
    | .Tilemap =>
        match save_object o files (saver.path ++ "\\" ++ tilemap.name ++ "\\") TILES
            (.tileLayer (tilemap.tiles.map
              (fun e => e.map (fun ent => (tiles_query ent).into_serialized)))) with
        | .error e => .error e
        | .ok files => .ok (files, pattern)
    | .MapPattern =>
        .ok (files, { pattern with
          tiles := (tilemap.tiles.map (fun e =>
            e.map (fun ent => (tiles_query ent).into_serialized))) })
  else .ok (files, pattern)

/-- Pathfinding layer of one save iteration (`save.rs` lines 153–180):
when mask bit 1 is set and the entity has a `PathTilemap`, mirror the
cost cells and either write the layer file (`Tilemap` mode) or store
them in the pattern (`MapPattern` mode). -/
def savePathLayer (o : FSOracle) (path_query : Entity → Option PathTilemap)
    (files : FileLog) (entity : Entity) (tilemap : Tilemap)
    (saver : TilemapSaver) (pattern : TilemapPattern) :
    Except String (FileLog × TilemapPattern) :=
  if saver.layers &&& 2 ≠ 0 then
    match path_query entity with
    | some path_tilemap =>
        match saver.mode with
        | .Tilemap =>
            match save_object o files (saver.path ++ "\\" ++ tilemap.name ++ "\\")
                PATH_TILES (.pathLayer ⟨path_tilemap.size,
                  path_tilemap.tiles.map (fun t => t.map PathTile.into_serialized)⟩) with
            | .error e => .error e
            | .ok files => .ok (files, pattern)
        | .MapPattern =>
            .ok (files, { pattern with
              path_tiles := (some (path_tilemap.tiles.map (fun t =>
                t.map PathTile.into_serialized))) })
    | none => .ok (files, pattern)
  else .ok (files, pattern)

/-- Final pattern write of one save iteration (`save.rs` lines
182–188): only in `MapPattern` mode, one file named
`<name>.ron` directly under the base path. -/
def savePatternFile (o : FSOracle) (files : FileLog) (tilemap : Tilemap)
    (saver : TilemapSaver) (pattern : TilemapPattern) :
    Except String FileLog :=
  if saver.mode = .MapPattern then
    save_object o files (saver.path ++ "\\") (tilemap.name ++ ".ron")
      (.mapPattern pattern)
  else .ok files

/-- Write phase of one iteration of the `save` system (`save.rs` lines
119–188), sequencing the four steps above; a panic in any step aborts.
`tiles_query` models the always-present `Tile` component lookup
(`unwrap`), `path_query` the fallible `PathTilemap` lookup. -/
def saveWrites (o : FSOracle) (tiles_query : Entity → Tile)
    (path_query : Entity → Option PathTilemap) (files : FileLog)
    (entity : Entity) (tilemap : Tilemap) (saver : TilemapSaver) :
    Except String FileLog :=
  match saveMeta o files tilemap saver with
  | .error e => .error e
  | .ok files =>
    match saveColorLayer o tiles_query files tilemap saver
        ⟨none, tilemap.size, [], none⟩ with
    | .error e => .error e
    | .ok (files, pattern) =>
      match savePathLayer o path_query files entity tilemap saver pattern with
      | .error e => .error e
      | .ok (files, pattern) => savePatternFile o files tilemap saver pattern

/-- One entry of the `tilemaps_query` the save system iterates over. -/
structure SaveRequest where
  entity : Entity
  tilemap : Tilemap
  saver : TilemapSaver
deriving DecidableEq, Repr

/-- Observable effects of a completed save pass: the file-write log and
the queued `despawn` and `remove::<TilemapSaver>` commands. -/
structure SaveEffects where
  files : List (String × Option SaveContent)
  despawned : List Entity
  removed_savers : List Entity
deriving DecidableEq, Repr

/-- Loop of the `save` system: per tilemap, run the writes, queue a
despawn when `remove_map_after_done` is set, and always queue removal
of the `TilemapSaver` marker. -/
def saveLoop (o : FSOracle) (tiles_query : Entity → Tile)
    (path_query : Entity → Option PathTilemap) :
    List SaveRequest → SaveEffects → Except String SaveEffects
  | [], acc => .ok acc
  | r :: rest, acc =>
      match saveWrites o tiles_query path_query acc.files r.entity
          r.tilemap r.saver with
      | .error e => .error e
      | .ok files =>
          saveLoop o tiles_query path_query rest
            ⟨files,
             (if r.saver.remove_map_after_done then acc.despawned ++ [r.entity]
              else acc.despawned),
             acc.removed_savers ++ [r.entity]⟩

/-- System `save` from `serializing/save.rs`.  A panic (`.error`)
aborts the whole app before the queued commands are applied, so the
error result carries no effects. -/
def save (o : FSOracle) (tiles_query : Entity → Tile)
    (path_query : Entity → Option PathTilemap) (reqs : List SaveRequest) :
    Except String SaveEffects :=
  saveLoop o tiles_query path_query reqs ⟨[], [], []⟩

/-- Entities despawned by a save run; a panicked run despawns none. -/
def despawnedOf : Except String SaveEffects → List Entity
  | .ok eff => eff.despawned
  | .error _ => []

/-- Failure analysis of `save_object`: it panics exactly when the
unconditional `File::open(path).unwrap()` fails for the target path. -/
lemma save_object_error (o : FSOracle)
    (files : List (String × Option SaveContent)) (path file_name : String)
    (object : SaveContent) (e : String)
    (h : save_object o files path file_name object = .error e) :
    o.open_ok (path ++ file_name) = false := by
  unfold save_object at h
  dsimp only [] at h
  split at h
  · split at h <;> simp at h
  · simp_all

/-- Failure analysis of the metadata step. -/
lemma saveMeta_error (o : FSOracle) (files : FileLog) (tilemap : Tilemap)
    (saver : TilemapSaver) (e : String)
    (h : saveMeta o files tilemap saver = .error e) :
    ∃ full, o.open_ok full = false := by
  unfold saveMeta at h
  split at h
  · exact ⟨_, save_object_error _ _ _ _ _ _ h⟩
  · simp at h

/-- Failure analysis of the tile/color layer step. -/
lemma saveColorLayer_error (o : FSOracle) (tq : Entity → Tile)
    (files : FileLog) (tilemap : Tilemap) (saver : TilemapSaver)
    (pattern : TilemapPattern) (e : String)
    (h : saveColorLayer o tq files tilemap saver pattern = .error e) :
    ∃ full, o.open_ok full = false := by
  unfold saveColorLayer at h
  split at h
  · split at h
    · split at h
      · rename_i heq
        exact ⟨_, save_object_error _ _ _ _ _ _ heq⟩
      · simp at h
    · simp at h
  · simp at h

/-- Failure analysis of the pathfinding layer step. -/
lemma savePathLayer_error (o : FSOracle) (pq : Entity → Option PathTilemap)
    (files : FileLog) (entity : Entity) (tilemap : Tilemap)
    (saver : TilemapSaver) (pattern : TilemapPattern) (e : String)
    (h : savePathLayer o pq files entity tilemap saver pattern = .error e) :
    ∃ full, o.open_ok full = false := by
  unfold savePathLayer at h
  split at h
  · split at h
    · split at h
      · split at h
        · rename_i heq
          exact ⟨_, save_object_error _ _ _ _ _ _ heq⟩
        · simp at h
      · simp at h
    · simp at h
  · simp at h

/-- Failure analysis of the pattern-file step. -/
lemma savePatternFile_error (o : FSOracle) (files : FileLog)
    (tilemap : Tilemap) (saver : TilemapSaver) (pattern : TilemapPattern)
    (e : String)
    (h : savePatternFile o files tilemap saver pattern = .error e) :
    ∃ full, o.open_ok full = false := by
  unfold savePatternFile at h
  split at h
  · exact ⟨_, save_object_error _ _ _ _ _ _ h⟩
  · simp at h

/-- Failure analysis of the write phase: a panic always traces back to
a path whose unconditional open failed. -/
lemma saveWrites_error (o : FSOracle) (tq : Entity → Tile)
    (pq : Entity → Option PathTilemap) (files : FileLog) (entity : Entity)
    (tilemap : Tilemap) (saver : TilemapSaver) (e : String)
    (h : saveWrites o tq pq files entity tilemap saver = .error e) :
    ∃ full, o.open_ok full = false := by
  unfold saveWrites at h
  split at h
  · rename_i heq
    exact saveMeta_error _ _ _ _ _ heq
  · rename_i files1 heq1
    split at h
    · rename_i heq
      exact saveColorLayer_error _ _ _ _ _ _ _ heq
    · rename_i files2 pattern2 heq2
      split at h
      · rename_i heq
        exact savePathLayer_error _ _ _ _ _ _ _ _ heq
      · exact savePatternFile_error _ _ _ _ _ _ h

/-- When every open succeeds, the write phase of one save iteration
never panics, whatever the directory creations, creates and writes do. -/
lemma saveWrites_no_panic (o : FSOracle) (tq : Entity → Tile)
    (pq : Entity → Option PathTilemap)
    (h : ∀ s, o.open_ok s = true)
    (files : FileLog) (entity : Entity) (tilemap : Tilemap)
    (saver : TilemapSaver) :
    ∃ files2,
      saveWrites o tq pq files entity tilemap saver = .ok files2 := by
  cases hsw : saveWrites o tq pq files entity tilemap saver with
  | ok f => exact ⟨f, rfl⟩
  | error e =>
      obtain ⟨full, hof⟩ :=
        saveWrites_error o tq pq files entity tilemap saver e hsw
      simp [h full] at hof

/-- Effects of a completed save loop: every processed request has its
saver marker removed and, when flagged, its entity despawned, and the
accumulator's queued commands are preserved. -/
lemma saveLoop_ok_spec (o : FSOracle) (tq : Entity → Tile)
    (pq : Entity → Option PathTilemap) (reqs : List SaveRequest) :
    ∀ (acc eff : SaveEffects), saveLoop o tq pq reqs acc = .ok eff →
      (∀ r ∈ reqs, r.entity ∈ eff.removed_savers ∧
        (r.saver.remove_map_after_done = true → r.entity ∈ eff.despawned)) ∧
      (∀ x ∈ acc.removed_savers, x ∈ eff.removed_savers) ∧
      (∀ x ∈ acc.despawned, x ∈ eff.despawned) := by
  induction reqs with
  | nil =>
      intro acc eff h
      simp only [saveLoop] at h
      cases h
      exact ⟨by simp, fun x hx => hx, fun x hx => hx⟩
  | cons r rest ih =>
      intro acc eff h
      simp only [saveLoop] at h
      cases hw : saveWrites o tq pq acc.files r.entity r.tilemap r.saver with
      | error e =>
          rw [hw] at h
          simp [Bind.bind, Except.bind] at h
      | ok files =>
          rw [hw] at h
          simp only [Bind.bind, Except.bind] at h
          obtain ⟨ih1, ih2, ih3⟩ := ih _ eff h
          refine ⟨?_, ?_, ?_⟩
          · intro r' hr'
            rcases List.mem_cons.mp hr' with hEq | hr'
            · subst hEq
              refine ⟨ih2 r'.entity (by simp), fun hflag => ?_⟩
              exact ih3 r'.entity (by simp [hflag])
            · exact ih1 r' hr'
          · intro x hx
            exact ih2 x (by simp [hx])
          · intro x hx
            apply ih3
            by_cases hf : r.saver.remove_map_after_done <;> simp [hf, hx]

/-- When every open succeeds, the whole save pass completes without
panicking. -/
lemma saveLoop_no_panic (o : FSOracle) (tq : Entity → Tile)
    (pq : Entity → Option PathTilemap)
    (h : ∀ s, o.open_ok s = true)
    (reqs : List SaveRequest) :
    ∀ acc : SaveEffects, ∃ eff, saveLoop o tq pq reqs acc = .ok eff := by
  induction reqs with
  | nil => intro acc; exact ⟨acc, rfl⟩
  | cons r rest ih =>
      intro acc
      obtain ⟨files, hw⟩ :=
        saveWrites_no_panic o tq pq h acc.files r.entity r.tilemap r.saver
      obtain ⟨eff, hl⟩ := ih ⟨files,
        (if r.saver.remove_map_after_done then acc.despawned ++ [r.entity]
         else acc.despawned), acc.removed_savers ++ [r.entity]⟩
      exact ⟨eff, by simp only [saveLoop, hw, Bind.bind, Except.bind]; exact hl⟩

/-- C4: every save request processed by a completed pass has its
save-request marker removed; when `remove_map_after_done` is set the
tilemap entity is despawned after the writes; and when a write panics
(the only way the reference reports a write error) the pass aborts with
no command applied, so no tilemap is destroyed. -/
theorem save_marker_and_despawn (o : FSOracle) (tq : Entity → Tile)
    (pq : Entity → Option PathTilemap) (reqs : List SaveRequest) :
    (∀ eff, save o tq pq reqs = .ok eff →
      ∀ r ∈ reqs, r.entity ∈ eff.removed_savers ∧
        (r.saver.remove_map_after_done = true → r.entity ∈ eff.despawned)) ∧
    (∀ e, save o tq pq reqs = .error e →
      ∀ ent, ent ∉ despawnedOf (save o tq pq reqs)) := by
  constructor
  · intro eff h r hr
    exact (saveLoop_ok_spec o tq pq reqs ⟨[], [], []⟩ eff h).1 r hr
  · intro e h ent
    simp [despawnedOf, h]

/-- Witness for C4: a one-request pass with the removal flag set
removes the marker and despawns the tilemap entity. -/
theorem save_marker_and_despawn_witness :
    (7 : Entity) ∈
      (⟨[("maps\\m\\tilemap_meta", some (.meta ⟨⟨1, 1⟩, .Square, 1, none⟩))],
        [7], [7]⟩ : SaveEffects).removed_savers ∧
    (7 : Entity) ∈
      (⟨[("maps\\m\\tilemap_meta", some (.meta ⟨⟨1, 1⟩, .Square, 1, none⟩))],
        [7], [7]⟩ : SaveEffects).despawned :=
  ⟨((save_marker_and_despawn
      ⟨fun _ => true, fun _ => true, fun _ => true, fun _ => true⟩
      (fun _ => ⟨0, 0, ⟨0, 0⟩, [-1, -1, -1, -1], 0, Vec4.ONE⟩)
      (fun _ => none)
      [⟨7, ⟨7, "m", ⟨1, 1⟩, 1, .Square, [none]⟩,
        ⟨"maps", none, 0, true, .Tilemap⟩⟩]).1
      ⟨[("maps\\m\\tilemap_meta", some (.meta ⟨⟨1, 1⟩, .Square, 1, none⟩))],
        [7], [7]⟩ (by rfl)
      ⟨7, ⟨7, "m", ⟨1, 1⟩, 1, .Square, [none]⟩,
        ⟨"maps", none, 0, true, .Tilemap⟩⟩ (by simp)).1,
   ((save_marker_and_despawn
      ⟨fun _ => true, fun _ => true, fun _ => true, fun _ => true⟩
      (fun _ => ⟨0, 0, ⟨0, 0⟩, [-1, -1, -1, -1], 0, Vec4.ONE⟩)
      (fun _ => none)
      [⟨7, ⟨7, "m", ⟨1, 1⟩, 1, .Square, [none]⟩,
        ⟨"maps", none, 0, true, .Tilemap⟩⟩]).1
      ⟨[("maps\\m\\tilemap_meta", some (.meta ⟨⟨1, 1⟩, .Square, 1, none⟩))],
        [7], [7]⟩ (by rfl)
      ⟨7, ⟨7, "m", ⟨1, 1⟩, 1, .Square, [none]⟩,
        ⟨"maps", none, 0, true, .Tilemap⟩⟩ (by simp)).2 rfl⟩

/-- C9: file-system errors never propagate from the reference save
path: `save_object` ignores the result of directory creation, swallows
a failed open-for-write — `unwrap_or` keeps the eagerly opened
read-only handle, discarding the original error and leaving the
written files unchanged — and reports success whether or not the write
itself succeeds.  The sole panic is the unconditional
`File::open(path).unwrap()`, which runs even after a successful
create; whenever every open succeeds, directory-creation, create and
write failures are all swallowed and the save pass completes,
processing every remaining layer and tilemap and clearing every
marker. -/
theorem save_object_swallows_fs_errors (o : FSOracle) (dok : String → Bool)
    (files : FileLog) (path file_name : String) (object : SaveContent)
    (tq : Entity → Tile) (pq : Entity → Option PathTilemap)
    (reqs : List SaveRequest)
    (hnp : ∀ s, o.open_ok s = true) :
    save_object ⟨dok, o.create_ok, o.open_ok, o.write_ok⟩
        files path file_name object =
      save_object o files path file_name object ∧
    (o.create_ok (path ++ file_name) = false →
      o.open_ok (path ++ file_name) = true →
      save_object o files path file_name object = .ok files) ∧
    (o.create_ok (path ++ file_name) = true →
      o.open_ok (path ++ file_name) = true →
      save_object o files path file_name object =
        .ok (files ++ [(path ++ file_name,
          if o.write_ok (path ++ file_name) then some object else none)])) ∧
    ∃ eff, save o tq pq reqs = .ok eff ∧
      ∀ r ∈ reqs, r.entity ∈ eff.removed_savers := by
  refine ⟨rfl, ?_, ?_, ?_⟩
  · intro h1 h2
    simp [save_object, h1, h2]
  · intro h1 h2
    simp [save_object, h1, h2]
  · obtain ⟨eff, hl⟩ := saveLoop_no_panic o tq pq hnp reqs ⟨[], [], []⟩
    exact ⟨eff, hl, fun r hr =>
      ((saveLoop_ok_spec o tq pq reqs ⟨[], [], []⟩ eff hl).1 r hr).1⟩

/-- Witness for C9 with an oracle whose directory creations, file
creations and writes all fail but whose opens succeed. -/
theorem save_object_swallows_fs_errors_witness :
    save_object ⟨fun _ => true, fun _ => false, fun _ => true, fun _ => false⟩
        [] "maps\\" "m.ron" (.mapPattern ⟨none, ⟨1, 1⟩, [], none⟩) =
      save_object ⟨fun _ => false, fun _ => false, fun _ => true, fun _ => false⟩
        [] "maps\\" "m.ron" (.mapPattern ⟨none, ⟨1, 1⟩, [], none⟩) ∧
    (false = false → true = true →
      save_object ⟨fun _ => false, fun _ => false, fun _ => true, fun _ => false⟩
        [] "maps\\" "m.ron" (.mapPattern ⟨none, ⟨1, 1⟩, [], none⟩) = .ok []) ∧
    (false = true → true = true →
      save_object ⟨fun _ => false, fun _ => false, fun _ => true, fun _ => false⟩
        [] "maps\\" "m.ron" (.mapPattern ⟨none, ⟨1, 1⟩, [], none⟩) =
        .ok ([] ++ [("maps\\" ++ "m.ron",
          if false then some (.mapPattern ⟨none, ⟨1, 1⟩, [], none⟩) else none)])) ∧
    ∃ eff,
      save ⟨fun _ => false, fun _ => false, fun _ => true, fun _ => false⟩
        (fun _ => ⟨0, 0, ⟨0, 0⟩, [-1, -1, -1, -1], 0, Vec4.ONE⟩) (fun _ => none)
        [⟨7, ⟨7, "m", ⟨1, 1⟩, 1, .Square, [none]⟩,
          ⟨"maps", none, 1, false, .Tilemap⟩⟩] = .ok eff ∧
      ∀ r ∈ [(⟨7, ⟨7, "m", ⟨1, 1⟩, 1, .Square, [none]⟩,
          ⟨"maps", none, 1, false, .Tilemap⟩⟩ : SaveRequest)],
        r.entity ∈ eff.removed_savers :=
  save_object_swallows_fs_errors
    ⟨fun _ => false, fun _ => false, fun _ => true, fun _ => false⟩
    (fun _ => true) [] "maps\\" "m.ron" (.mapPattern ⟨none, ⟨1, 1⟩, [], none⟩)
    (fun _ => ⟨0, 0, ⟨0, 0⟩, [-1, -1, -1, -1], 0, Vec4.ONE⟩) (fun _ => none)
    [⟨7, ⟨7, "m", ⟨1, 1⟩, 1, .Square, [none]⟩, ⟨"maps", none, 1, false, .Tilemap⟩⟩]
    (fun _ => rfl)

/-- C6 (amended): in `Tilemap` mode, with every file creation, the
unconditional re-open and every write succeeding, a save request
produces the metadata file, a tile-layer file if and only if mask bit 0
is set, and a pathfinding-layer file if and only if mask bit 1 is set
and the tilemap has a pathfinding layer attached; each layer file holds
one optional record per grid cell, in order, `None` for cells absent
from the sparse structure. -/
theorem save_tilemap_mode_files (tq : Entity → Tile)
    (pq : Entity → Option PathTilemap) (e : Entity) (tm : Tilemap)
    (saver : TilemapSaver) (o : FSOracle) (hmode : saver.mode = .Tilemap)
    (hc : ∀ s, o.create_ok s = true) (ho : ∀ s, o.open_ok s = true)
    (hw : ∀ s, o.write_ok s = true) :
    save o tq pq [⟨e, tm, saver⟩] = .ok
      ⟨[(saver.path ++ "\\" ++ tm.name ++ "\\" ++ TILEMAP_META,
         some (.meta (SerializedTilemap.from_tilemap tm saver)))] ++
       (if saver.layers &&& 1 ≠ 0 then
          [(saver.path ++ "\\" ++ tm.name ++ "\\" ++ TILES,
            some (.tileLayer (tm.tiles.map (fun oe =>
              oe.map (fun ent => (tq ent).into_serialized)))))]
        else []) ++
       (if saver.layers &&& 2 ≠ 0 then
          (match pq e with
           | some ptm =>
               [(saver.path ++ "\\" ++ tm.name ++ "\\" ++ PATH_TILES,
                 some (.pathLayer ⟨ptm.size,
                   ptm.tiles.map (fun t => t.map PathTile.into_serialized)⟩))]
           | none => [])
        else []),
       (if saver.remove_map_after_done then [e] else []),
       [e]⟩ := by
  have hMeta : ∀ fs : FileLog, saveMeta o fs tm saver =
      .ok (fs ++ [(saver.path ++ "\\" ++ tm.name ++ "\\" ++ TILEMAP_META,
        some (.meta (SerializedTilemap.from_tilemap tm saver)))]) := by
    intro fs
    simp [saveMeta, hmode, save_object, hc, ho, hw]
  have hColor : ∀ fs : FileLog, ∀ P : TilemapPattern,
      saveColorLayer o tq fs tm saver P =
      .ok (fs ++
        (if saver.layers &&& 1 ≠ 0 then
          [(saver.path ++ "\\" ++ tm.name ++ "\\" ++ TILES,
            some (.tileLayer (tm.tiles.map (fun oe =>
              oe.map (fun ent => (tq ent).into_serialized)))))]
         else []), P) := by
    intro fs P
    simp [saveColorLayer, hmode, save_object, hc, ho, hw]
    split <;> simp
  have hPath : ∀ fs : FileLog, ∀ P : TilemapPattern,
      savePathLayer o pq fs e tm saver P =
      .ok (fs ++
        (if saver.layers &&& 2 ≠ 0 then
          (match pq e with
           | some ptm =>
               [(saver.path ++ "\\" ++ tm.name ++ "\\" ++ PATH_TILES,
                 some (.pathLayer ⟨ptm.size,
                   ptm.tiles.map (fun t => t.map PathTile.into_serialized)⟩))]
           | none => [])
         else []), P) := by
    intro fs P
    simp [savePathLayer, hmode, save_object, hc, ho, hw]
    split
    · simp
    · cases hpq : pq e <;> simp [hpq]
  have hPat : ∀ fs : FileLog, ∀ P : TilemapPattern,
      savePatternFile o fs tm saver P = .ok fs := by
    intro fs P
    simp [savePatternFile, hmode]
  simp only [save, saveLoop, saveWrites, hMeta, hColor, hPath, hPat]
  simp [List.append_assoc]

/-- Witness for C6 with both mask bits set and a pathfinding layer
attached. -/
theorem save_tilemap_mode_files_witness :
    save ⟨fun _ => true, fun _ => true, fun _ => true, fun _ => true⟩
        (fun _ => ⟨9, 0, ⟨0, 0⟩, [5, -1, -1, -1], 0, Vec4.ONE⟩)
        (fun _ => some ⟨⟨2, 1⟩, [some ⟨4⟩, none]⟩)
        [⟨7, ⟨7, "m", ⟨2, 1⟩, 1, .Square, [some 3, none]⟩,
          ⟨"maps", none, 3, false, .Tilemap⟩⟩] = .ok
      ⟨[("maps\\m\\tilemap_meta", some (.meta ⟨⟨2, 1⟩, .Square, 1, none⟩)),
        ("maps\\m\\tiles", some (.tileLayer
          [some ⟨[5, -1, -1, -1], 0, none, Vec4.ONE⟩, none])),
        ("maps\\m\\path_tiles", some (.pathLayer ⟨⟨2, 1⟩, [some ⟨4⟩, none]⟩))],
       [], [7]⟩ :=
  save_tilemap_mode_files
    (fun _ => ⟨9, 0, ⟨0, 0⟩, [5, -1, -1, -1], 0, Vec4.ONE⟩)
    (fun _ => some ⟨⟨2, 1⟩, [some ⟨4⟩, none]⟩) 7
    ⟨7, "m", ⟨2, 1⟩, 1, .Square, [some 3, none]⟩
    ⟨"maps", none, 3, false, .Tilemap⟩
    ⟨fun _ => true, fun _ => true, fun _ => true, fun _ => true⟩
    rfl (fun _ => rfl) (fun _ => rfl) (fun _ => rfl)

/-- C6 counterexample: mask bit 1 set but no pathfinding layer attached
— the pass writes only the metadata file, no pathfinding-layer file,
refuting the claim's unconditional "if and only if bit 1 is set". -/
theorem save_path_bit_without_path_tilemap :
    save ⟨fun _ => true, fun _ => true, fun _ => true, fun _ => true⟩
        (fun _ => ⟨0, 0, ⟨0, 0⟩, [-1, -1, -1, -1], 0, Vec4.ONE⟩)
        (fun _ => none)
        [⟨7, ⟨7, "m", ⟨1, 1⟩, 1, .Square, [none]⟩,
          ⟨"maps", none, 2, false, .Tilemap⟩⟩] = .ok
      ⟨[("maps\\m\\tilemap_meta", some (.meta ⟨⟨1, 1⟩, .Square, 1, none⟩))],
       [], [7]⟩ ∧
    (2 : Nat) &&& 2 ≠ 0 ∧
    ∀ pr ∈ [("maps\\m\\tilemap_meta",
        some (SaveContent.meta ⟨⟨1, 1⟩, .Square, 1, none⟩))],
      Prod.fst pr ≠ "maps\\m\\" ++ PATH_TILES := by
  refine ⟨rfl, by decide, by decide⟩

/-- C5 (code evaluation): a `MapPattern` save of a tilemap named `m`
under base path `maps` writes exactly one file and no metadata file;
the file holds the pattern record — optional label, grid size, one
optional tile record per cell in order, optional cost-cell sequence —
but its name is `maps\m.ron`, not the `<name>.pattern` promised by the
saver builder's own doc comment and the spec. -/
theorem save_pattern_mode_eval :
    save ⟨fun _ => true, fun _ => true, fun _ => true, fun _ => true⟩
        (fun _ => ⟨7, 0, ⟨0, 0⟩, [5, -1, -1, -1], 0, Vec4.ONE⟩)
        (fun _ => none)
        [⟨7, ⟨7, "m", ⟨2, 1⟩, 1, .Square, [some 3, none]⟩,
          ⟨"maps", none, 1, false, .MapPattern⟩⟩] = .ok
      ⟨[("maps\\m.ron", some (.mapPattern ⟨none, ⟨2, 1⟩,
          [some ⟨[5, -1, -1, -1], 0, none, Vec4.ONE⟩, none], none⟩))],
       [], [7]⟩ ∧
    "maps\\m.ron" = "maps" ++ "\\" ++ "m" ++ ".ron" ∧
    "maps\\m.ron" ≠ "maps" ++ "\\" ++ "m" ++ ".pattern" := by
  refine ⟨rfl, by decide, by decide⟩

end EntiTiles
